import Mathlib

/-!
# knowhere: `KnowhereConfig` (src/common/comp/knowhere_config.cc)

A shallow embedding of the process-wide configuration layer of knowhere.

* The globals of namespace `faiss` that the file writes (`use_avx512`, `use_avx2`,
  `use_sse4_2`, `distance_compute_blas_threshold`, `early_stop_threshold`,
  `clustering_type`) form the record `FaissGlobals`.
* The whole observable state is `World`: the faiss globals, the log written through
  `LOG_KNOWHERE_INFO_`, the trace of `faiss::fvec_hook` invocations and the state of the
  feature-gated collaborators (AIO pool, GPU resource manager, RAFT memory pool).
* Preprocessor conditionals are a `Build` record; every branch of every `#ifdef` is embedded.
* `int64_t` and `int` are `Int` with explicit wrap-around at the cast
  `static_cast<int>`; `size_t` is `Nat`; `double` is its binary64 bit pattern (the file only
  copies doubles, it never computes with them).
-/

namespace knowhere

/-! ## Data model -/

/-- A C++ `double`, represented by its IEEE-754 binary64 bit pattern. -/
structure Double where
  bits : Fin (2 ^ 64)
  deriving DecidableEq

/-- The double `0.0`. -/
def Double.zero : Double := ⟨0⟩

/-- The double `1.0` (bit pattern `0x3FF0000000000000`). -/
def Double.one : Double := ⟨⟨4607182418800017408, by decide⟩⟩

/-- Modelled from the spec: the enum `faiss::ClusteringType` of the clustering
collaborator (faiss/Clustering.h, absent here), by underlying value. -/
structure FaissClusteringType where
  val : Int
  deriving DecidableEq

/-- Enumerator `faiss::ClusteringType::K_MEANS`. -/
def FaissClusteringType.K_MEANS : FaissClusteringType := ⟨0⟩

/-- Enumerator `faiss::ClusteringType::K_MEANS_PLUS_PLUS`. -/
def FaissClusteringType.K_MEANS_PLUS_PLUS : FaissClusteringType := ⟨1⟩

/-- The globals of namespace `faiss` written by `KnowhereConfig`. -/
structure FaissGlobals where
  use_avx512 : Bool
  use_avx2 : Bool
  use_sse4_2 : Bool
  distance_compute_blas_threshold : Int
  early_stop_threshold : Double
  clustering_type : FaissClusteringType
  deriving DecidableEq

/-- One operand of a `LOG_KNOWHERE_INFO_ << ...` chain. -/
inductive LogPiece where
  | str (s : String)
  | int (n : Int)
  | dbl (x : Double)
  deriving DecidableEq

/-- One logged record: the operands streamed into it, in order. -/
abbrev LogRecord := List LogPiece

/-- The three kernel flags as seen by one invocation of `faiss::fvec_hook`. -/
structure SimdFlags where
  avx512 : Bool
  avx2 : Bool
  sse4_2 : Bool
  deriving DecidableEq

/-- The observable process state; `ε` is the state of the feature-gated collaborators. -/
structure World (ε : Type) where
  faiss : FaissGlobals
  log : List LogRecord
  hook_calls : List SimdFlags
  ext : ε
  deriving DecidableEq

/-- The flags currently stored in the faiss globals. -/
def World.flags {ε : Type} (w : World ε) : SimdFlags :=
  ⟨w.faiss.use_avx512, w.faiss.use_avx2, w.faiss.use_sse4_2⟩

/-- The preprocessor configuration of a build. `KNOWHERE_VERSION` holds the stringized
expansion `XSTR(KNOWHERE_VERSION)` when the symbol is defined. -/
structure Build where
  x86_64 : Bool
  KNOWHERE_VERSION : Option String
  KNOWHERE_WITH_DISKANN : Bool
  KNOWHERE_WITH_GPU : Bool
  KNOWHERE_WITH_RAFT : Bool
  NDEBUG : Bool
  deriving DecidableEq

/-- Modelled from the spec: the collaborators called by knowhere_config.cc whose code is
outside this file (simd/hook, diskann/aio_context_pool, index/gpu/gpu_res_mgr,
common/raft/raft_utils). `fvec_hook` inspects the three flags and writes the name of the
kernel path it binds into its in-out string argument. The feature-gated operations act on
the collaborator state `ε` and may signal an error. -/
structure Collaborators (ε : Type) where
  fvec_hook : SimdFlags → String → String
  default_max_events : Nat
  InitGlobalAioPool : Nat → Nat → ε → Except String Bool × ε
  GPUResMgr_InitDevice : Int → Int → ε → Except String Unit × ε
  GPUResMgr_Init : ε → Except String Unit × ε
  GPUResMgr_Free : ε → Except String Unit × ε
  set_mem_pool_size : Nat → Nat → ε → Except String Unit × ε

/-- Append one record to the log. -/
def World.emit {ε : Type} (w : World ε) (r : LogRecord) : World ε :=
  { w with log := w.log ++ [r] }

/-- The conversion `static_cast<int>(x)` of an `int64_t` to the 32-bit `int`: the value
congruent to `x` modulo `2^32` in the range of `int`. -/
def static_cast_int (x : Int) : Int :=
  (x + 2 ^ 31) % 2 ^ 32 - 2 ^ 31

/-- Range of `int64_t`. -/
def isInt64 (x : Int) : Prop := -2 ^ 63 ≤ x ∧ x ≤ 2 ^ 63 - 1

instance (x : Int) : Decidable (isInt64 x) := by
  unfold isInt64; infer_instance

namespace KnowhereConfig

/-- Modelled from the spec: the enum `KnowhereConfig::SimdType`, declared in
knowhere/comp/knowhere_config.h (absent here), by underlying value, so that values that are
no enumerator are representable. The enumerators are numbered in the order the
specification lists the tiers; only their distinctness is ever used. -/
structure SimdType where
  val : Int
  deriving DecidableEq

/-- Enumerator `SimdType::AUTO`. -/
def SimdType.AUTO : SimdType := ⟨0⟩
/-- Enumerator `SimdType::AVX512`. -/
def SimdType.AVX512 : SimdType := ⟨1⟩
/-- Enumerator `SimdType::AVX2`. -/
def SimdType.AVX2 : SimdType := ⟨2⟩
/-- Enumerator `SimdType::SSE4_2`. -/
def SimdType.SSE4_2 : SimdType := ⟨3⟩
/-- Enumerator `SimdType::GENERIC`. -/
def SimdType.GENERIC : SimdType := ⟨4⟩

/-- Modelled from the spec: the enum `KnowhereConfig::ClusteringType`, declared in
knowhere/comp/knowhere_config.h (absent here), by underlying value. -/
structure ClusteringType where
  val : Int
  deriving DecidableEq

/-- Enumerator `ClusteringType::K_MEANS`. -/
def ClusteringType.K_MEANS : ClusteringType := ⟨0⟩
/-- Enumerator `ClusteringType::K_MEANS_PLUS_PLUS`. -/
def ClusteringType.K_MEANS_PLUS_PLUS : ClusteringType := ⟨1⟩

/-! ## Operations -/

/-- The string `msg` built by `ShowVersion` (lines 37-50). -/
def ShowVersion_msg (b : Build) : String :=
  let msg := "Knowhere Version: "
  let msg :=
    match b.KNOWHERE_VERSION with
    | some v =>
      let msg := msg ++ v
      if b.KNOWHERE_WITH_RAFT then msg ++ "-gpu" else msg
    | none => msg ++ " unknown"
  if b.NDEBUG then msg else msg ++ " (DEBUG)"

/-- `KnowhereConfig::ShowVersion`. -/
def ShowVersion {ε : Type} (b : Build) (w : World ε) : World ε :=
  w.emit [.str (ShowVersion_msg b)]

/-- Assign the three kernel flags. -/
def setFlags {ε : Type} (w : World ε) (a512 a2 s42 : Bool) : World ε :=
  { w with faiss := { w.faiss with use_avx512 := a512, use_avx2 := a2, use_sse4_2 := s42 } }

/-- The `#ifdef __x86_64__` block of `SetSimdType` (lines 57-84). -/
def SetSimdType_flags {ε : Type} (b : Build) (simd_type : SimdType) (w : World ε) : World ε :=
  if b.x86_64 then
    if simd_type = SimdType.AUTO then
      (setFlags w true true true).emit [.str "FAISS expect simdType::AUTO"]
    else if simd_type = SimdType.AVX512 then
      (setFlags w true true true).emit [.str "FAISS expect simdType::AVX512"]
    else if simd_type = SimdType.AVX2 then
      (setFlags w false true true).emit [.str "FAISS expect simdType::AVX2"]
    else if simd_type = SimdType.SSE4_2 then
      (setFlags w false false true).emit [.str "FAISS expect simdType::SSE4_2"]
    else if simd_type = SimdType.GENERIC then
      (setFlags w false false false).emit [.str "FAISS expect simdType::GENERIC"]
    else w
  else w

/-- `KnowhereConfig::SetSimdType`: returns `simd_str` and the new state. -/
def SetSimdType {ε : Type} (b : Build) (c : Collaborators ε) (simd_type : SimdType)
    (w : World ε) : String × World ε :=
  let w1 := SetSimdType_flags b simd_type w
  let simd_str := c.fvec_hook w1.flags ""
  let w2 := { w1 with hook_calls := w1.hook_calls ++ [w1.flags] }
  (simd_str, w2.emit [.str "FAISS hook ", .str simd_str])

/-- `KnowhereConfig::SetBlasThreshold`. -/
def SetBlasThreshold {ε : Type} (use_blas_threshold : Int) (w : World ε) : World ε :=
  let w1 := w.emit [.str "Set faiss::distance_compute_blas_threshold to ", .int use_blas_threshold]
  { w1 with faiss :=
      { w1.faiss with distance_compute_blas_threshold := static_cast_int use_blas_threshold } }

/-- `KnowhereConfig::GetBlasThreshold`. -/
def GetBlasThreshold {ε : Type} (w : World ε) : Int :=
  w.faiss.distance_compute_blas_threshold

/-- `KnowhereConfig::SetEarlyStopThreshold`. -/
def SetEarlyStopThreshold {ε : Type} (early_stop_threshold : Double) (w : World ε) : World ε :=
  let w1 := w.emit [.str "Set faiss::early_stop_threshold to ", .dbl early_stop_threshold]
  { w1 with faiss := { w1.faiss with early_stop_threshold := early_stop_threshold } }

/-- `KnowhereConfig::GetEarlyStopThreshold`. -/
def GetEarlyStopThreshold {ε : Type} (w : World ε) : Double :=
  w.faiss.early_stop_threshold

/-- `KnowhereConfig::SetClusteringType`. The `switch` sends `K_MEANS_PLUS_PLUS` to its own
case and everything else (`case K_MEANS: default:`) to `K_MEANS`. -/
def SetClusteringType {ε : Type} (clustering_type : ClusteringType) (w : World ε) : World ε :=
  let w1 := w.emit [.str "Set faiss::clustering_type to ", .int clustering_type.val]
  if clustering_type = ClusteringType.K_MEANS_PLUS_PLUS then
    { w1 with faiss := { w1.faiss with clustering_type := FaissClusteringType.K_MEANS_PLUS_PLUS } }
  else
    { w1 with faiss := { w1.faiss with clustering_type := FaissClusteringType.K_MEANS } }

/-- `KnowhereConfig::SetAioContextPool`. -/
def SetAioContextPool {ε : Type} (b : Build) (c : Collaborators ε) (num_ctx : Nat)
    (w : World ε) : Except String Bool × World ε :=
  if b.KNOWHERE_WITH_DISKANN then
    let r := c.InitGlobalAioPool num_ctx c.default_max_events w.ext
    (r.1, { w with ext := r.2 })
  else
    (.ok true, w)

/-- `KnowhereConfig::InitGPUResource`. -/
def InitGPUResource {ε : Type} (b : Build) (c : Collaborators ε) (gpu_id res_num : Int)
    (w : World ε) : Except String Unit × World ε :=
  if b.KNOWHERE_WITH_GPU then
    let w1 := w.emit [.str "init GPU resource for gpu id ", .int gpu_id,
      .str ", resource num ", .int res_num]
    let r1 := c.GPUResMgr_InitDevice gpu_id res_num w1.ext
    match r1.1 with
    | .error e => (.error e, { w1 with ext := r1.2 })
    | .ok () =>
      let r2 := c.GPUResMgr_Init r1.2
      (r2.1, { w1 with ext := r2.2 })
  else
    (.ok (), w)

/-- `KnowhereConfig::FreeGPUResource`. -/
def FreeGPUResource {ε : Type} (b : Build) (c : Collaborators ε)
    (w : World ε) : Except String Unit × World ε :=
  if b.KNOWHERE_WITH_GPU then
    let w1 := w.emit [.str "free GPU resource"]
    let r := c.GPUResMgr_Free w1.ext
    (r.1, { w1 with ext := r.2 })
  else
    (.ok (), w)

/-- `KnowhereConfig::SetRaftMemPool`. -/
def SetRaftMemPool {ε : Type} (b : Build) (c : Collaborators ε) (init_size max_size : Nat)
    (w : World ε) : Except String Unit × World ε :=
  if b.KNOWHERE_WITH_RAFT then
    let r := c.set_mem_pool_size init_size max_size w.ext
    (r.1, { w with ext := r.2 })
  else
    (.ok (), w)

/-! ## Reference formulation and sample inputs -/

/-- The message of `ShowVersion` as the specification words it: the version identifier
(or "unknown"), then "-gpu" iff RAFT is compiled in, then " (DEBUG)" iff the build is not
optimized. -/
def ShowVersion_msg_spec (b : Build) : String :=
  "Knowhere Version: " ++ b.KNOWHERE_VERSION.getD "unknown"
    ++ (if b.KNOWHERE_WITH_RAFT then "-gpu" else "")
    ++ (if b.NDEBUG then "" else " (DEBUG)")

/-- The five enumerators of `SimdType`. -/
def recognized : List SimdType :=
  [SimdType.AUTO, SimdType.AVX512, SimdType.AVX2, SimdType.SSE4_2, SimdType.GENERIC]

/-- The inclusive flag set of a recognized tier, as the specification tabulates it. -/
def expectedFlags (t : SimdType) : SimdFlags :=
  if t = SimdType.AUTO ∨ t = SimdType.AVX512 then ⟨true, true, true⟩
  else if t = SimdType.AVX2 then ⟨false, true, true⟩
  else if t = SimdType.SSE4_2 then ⟨false, false, true⟩
  else ⟨false, false, false⟩

/-- A sample collaborator set over a trivial collaborator state: the hook names the highest
enabled tier, the pool constructor succeeds, GPU initialisation fails. -/
def sampleCollab : Collaborators Unit where
  fvec_hook := fun f _ =>
    if f.avx512 then "AVX512" else if f.avx2 then "AVX2"
    else if f.sse4_2 then "SSE4_2" else "GENERIC"
  default_max_events := 32
  InitGlobalAioPool := fun _ _ e => (.ok true, e)
  GPUResMgr_InitDevice := fun _ _ e => (.error "no device", e)
  GPUResMgr_Init := fun e => (.ok (), e)
  GPUResMgr_Free := fun e => (.ok (), e)
  set_mem_pool_size := fun _ _ e => (.ok (), e)

/-- A sample prior state. -/
def sampleWorld : World Unit where
  faiss :=
    { use_avx512 := true, use_avx2 := false, use_sse4_2 := true,
      distance_compute_blas_threshold := 20, early_stop_threshold := Double.zero,
      clustering_type := ⟨7⟩ }
  log := []
  hook_calls := []
  ext := ()

/-- An x86_64 release build with a version identifier and no optional feature. -/
def sampleBuild : Build where
  x86_64 := true
  KNOWHERE_VERSION := some "v2.2.1"
  KNOWHERE_WITH_DISKANN := false
  KNOWHERE_WITH_GPU := false
  KNOWHERE_WITH_RAFT := false
  NDEBUG := true

/-- A release build without version identifier, with RAFT compiled in. -/
def raftBuildNoVersion : Build where
  x86_64 := true
  KNOWHERE_VERSION := none
  KNOWHERE_WITH_DISKANN := false
  KNOWHERE_WITH_GPU := true
  KNOWHERE_WITH_RAFT := true
  NDEBUG := true

/-! ## Auxiliary lemmas -/

theorem static_cast_int_range (x : Int) :
    -2 ^ 31 ≤ static_cast_int x ∧ static_cast_int x ≤ 2 ^ 31 - 1 := by
  unfold static_cast_int
  constructor <;> omega

theorem static_cast_int_congr (x : Int) :
    (2 ^ 32 : Int) ∣ (x - static_cast_int x) := by
  unfold static_cast_int
  refine ⟨(x + 2 ^ 31) / 2 ^ 32, ?_⟩
  omega

theorem static_cast_int_id (x : Int) (hlo : -2 ^ 31 ≤ x) (hhi : x ≤ 2 ^ 31 - 1) :
    static_cast_int x = x := by
  unfold static_cast_int
  omega

theorem static_cast_int_eq_iff (x : Int) :
    static_cast_int x = x ↔ (-2 ^ 31 ≤ x ∧ x ≤ 2 ^ 31 - 1) := by
  constructor
  · intro h
    have hr := static_cast_int_range x
    rw [h] at hr
    exact hr
  · rintro ⟨hlo, hhi⟩
    exact static_cast_int_id x hlo hhi

theorem getBlas_setBlas {ε : Type} (x : Int) (w : World ε) :
    GetBlasThreshold (SetBlasThreshold x w) = static_cast_int x := rfl

theorem flags_SetSimdType_flags {ε : Type} (b : Build) (t : SimdType) (w : World ε)
    (hb : b.x86_64 = true) (ht : t ∈ recognized) :
    (SetSimdType_flags b t w).flags = expectedFlags t := by
  simp only [recognized, List.mem_cons, List.mem_singleton, List.not_mem_nil, or_false] at ht
  rcases ht with h | h | h | h | h <;> subst h <;>
    simp [SetSimdType_flags, hb, expectedFlags, World.flags, World.emit, setFlags,
      SimdType.AUTO, SimdType.AVX512, SimdType.AVX2, SimdType.SSE4_2, SimdType.GENERIC]

theorem SetSimdType_flags_unrecognized {ε : Type} (b : Build) (t : SimdType) (w : World ε)
    (ht : t ∉ recognized) : SetSimdType_flags b t w = w := by
  simp only [recognized, List.mem_cons, List.mem_singleton, List.not_mem_nil, or_false,
    not_or] at ht
  obtain ⟨h1, h2, h3, h4, h5⟩ := ht
  simp [SetSimdType_flags, h1, h2, h3, h4, h5]

theorem SetSimdType_flags_frame {ε : Type} (b : Build) (t : SimdType) (w : World ε) :
    (SetSimdType_flags b t w).faiss.distance_compute_blas_threshold
        = w.faiss.distance_compute_blas_threshold
      ∧ (SetSimdType_flags b t w).faiss.early_stop_threshold = w.faiss.early_stop_threshold
      ∧ (SetSimdType_flags b t w).faiss.clustering_type = w.faiss.clustering_type
      ∧ (SetSimdType_flags b t w).hook_calls = w.hook_calls
      ∧ (SetSimdType_flags b t w).ext = w.ext := by
  unfold SetSimdType_flags
  split_ifs <;> simp [World.emit, setFlags]

/-! ## Numeric threshold store -/

/-- C1 (as stated, refuted): it is not the case that for every int64 value `x` and every
prior state `GetBlasThreshold` after `SetBlasThreshold x` returns `x`; at `x = 2^31` the
stored value is `-2^31`. -/
theorem C1_roundtrip_not_for_all_int64 :
    ¬ (∀ (x : Int), isInt64 x → ∀ (w : World Unit),
        GetBlasThreshold (SetBlasThreshold x w) = x) := by
  intro h
  have h1 := h (2 ^ 31) (by decide) sampleWorld
  rw [getBlas_setBlas] at h1
  revert h1
  decide

/-- C1 (amended): for every value `x` in the range of the 32-bit `int`
(`-2^31 ≤ x ≤ 2^31 - 1`, negative values included) and every prior state,
`SetBlasThreshold x` followed by `GetBlasThreshold` returns exactly `x`: there is no
clamping and no validation. -/
theorem C1_roundtrip_in_int_range {ε : Type} (x : Int) (w : World ε)
    (hlo : -2 ^ 31 ≤ x) (hhi : x ≤ 2 ^ 31 - 1) :
    GetBlasThreshold (SetBlasThreshold x w) = x := by
  rw [getBlas_setBlas]
  exact static_cast_int_id x hlo hhi

/-- C1 (amended), evaluated at the negative value `-5` on the sample state. -/
theorem C1_roundtrip_in_int_range_witness :
    (-2 ^ 31 ≤ (-5 : Int) ∧ (-5 : Int) ≤ 2 ^ 31 - 1)
      ∧ GetBlasThreshold (SetBlasThreshold (-5) sampleWorld) = -5 :=
  ⟨by decide, C1_roundtrip_in_int_range (-5) sampleWorld (by decide) (by decide)⟩

/-- C10: `SetBlasThreshold` stores its argument narrowed to a 32-bit signed `int`: for every
`x` the value read back lies in `[-2^31, 2^31 - 1]`, is congruent to `x` modulo `2^32`, and
equals `x` if and only if `-2^31 ≤ x ≤ 2^31 - 1`; `16384` round-trips and `2^31` does not. -/
theorem C10_blas_threshold_narrowed_to_int {ε : Type} (x : Int) (w : World ε) :
    (-2 ^ 31 ≤ GetBlasThreshold (SetBlasThreshold x w)
        ∧ GetBlasThreshold (SetBlasThreshold x w) ≤ 2 ^ 31 - 1)
      ∧ (2 ^ 32 : Int) ∣ (x - GetBlasThreshold (SetBlasThreshold x w))
      ∧ (GetBlasThreshold (SetBlasThreshold x w) = x ↔ (-2 ^ 31 ≤ x ∧ x ≤ 2 ^ 31 - 1))
      ∧ GetBlasThreshold (SetBlasThreshold 16384 w) = 16384
      ∧ GetBlasThreshold (SetBlasThreshold (2 ^ 31) w) ≠ 2 ^ 31 := by
  refine ⟨?_, ?_, ?_, ?_, ?_⟩
  · rw [getBlas_setBlas]; exact static_cast_int_range x
  · rw [getBlas_setBlas]; exact static_cast_int_congr x
  · rw [getBlas_setBlas]; exact static_cast_int_eq_iff x
  · rw [getBlas_setBlas]; decide
  · rw [getBlas_setBlas]; decide

/-- C4: for every double `x` and every prior state, `SetEarlyStopThreshold x` followed by
`GetEarlyStopThreshold` returns exactly `x`; in particular `0.0` and `1.0` are returned
unchanged. -/
theorem C4_early_stop_roundtrip {ε : Type} (x : Double) (w : World ε) :
    GetEarlyStopThreshold (SetEarlyStopThreshold x w) = x
      ∧ GetEarlyStopThreshold (SetEarlyStopThreshold Double.zero w) = Double.zero
      ∧ GetEarlyStopThreshold (SetEarlyStopThreshold Double.one w) = Double.one :=
  ⟨rfl, rfl, rfl⟩

/-! ## Clustering strategy selector -/

/-- C3: for every `ClusteringType` value `s`, enumerator or not, and every prior state,
after `SetClusteringType s` the faiss clustering flag is `K_MEANS_PLUS_PLUS` when `s` is
`K_MEANS_PLUS_PLUS` and `K_MEANS` otherwise (shown also at the out-of-range values `99`
and `-1`); the operation is total and has no error result. -/
theorem C3_clustering_type_mapping {ε : Type} (s : ClusteringType) (w : World ε) :
    (SetClusteringType s w).faiss.clustering_type
        = (if s = ClusteringType.K_MEANS_PLUS_PLUS then FaissClusteringType.K_MEANS_PLUS_PLUS
           else FaissClusteringType.K_MEANS)
      ∧ (SetClusteringType ClusteringType.K_MEANS_PLUS_PLUS w).faiss.clustering_type
          = FaissClusteringType.K_MEANS_PLUS_PLUS
      ∧ (SetClusteringType ClusteringType.K_MEANS w).faiss.clustering_type
          = FaissClusteringType.K_MEANS
      ∧ (SetClusteringType ⟨99⟩ w).faiss.clustering_type = FaissClusteringType.K_MEANS
      ∧ (SetClusteringType ⟨-1⟩ w).faiss.clustering_type = FaissClusteringType.K_MEANS := by
  refine ⟨?_, ?_, ?_, ?_, ?_⟩
  · unfold SetClusteringType
    split_ifs <;> rfl
  · simp [SetClusteringType]
  · simp [SetClusteringType, ClusteringType.K_MEANS, ClusteringType.K_MEANS_PLUS_PLUS]
  · simp [SetClusteringType, ClusteringType.K_MEANS_PLUS_PLUS]
  · simp [SetClusteringType, ClusteringType.K_MEANS_PLUS_PLUS]

/-! ## SIMD tier selector -/

/-- C2: on an x86_64 build, for every prior state, `SetSimdType` leaves the three kernel
flags `(use_avx512, use_avx2, use_sse4_2)` at `(true, true, true)` for AUTO and AVX512,
`(false, true, true)` for AVX2, `(false, false, true)` for SSE4_2 and
`(false, false, false)` for GENERIC; for each recognized tier an enabled flag has every
lower-tier flag enabled as well. -/
theorem C2_simd_flags_inclusive {ε : Type} (b : Build) (c : Collaborators ε) (w : World ε)
    (hb : b.x86_64 = true) :
    (SetSimdType b c SimdType.AUTO w).2.flags = ⟨true, true, true⟩
      ∧ (SetSimdType b c SimdType.AVX512 w).2.flags = ⟨true, true, true⟩
      ∧ (SetSimdType b c SimdType.AVX2 w).2.flags = ⟨false, true, true⟩
      ∧ (SetSimdType b c SimdType.SSE4_2 w).2.flags = ⟨false, false, true⟩
      ∧ (SetSimdType b c SimdType.GENERIC w).2.flags = ⟨false, false, false⟩
      ∧ ∀ t ∈ recognized,
          ((SetSimdType b c t w).2.faiss.use_avx512 = true →
              (SetSimdType b c t w).2.faiss.use_avx2 = true)
            ∧ ((SetSimdType b c t w).2.faiss.use_avx2 = true →
              (SetSimdType b c t w).2.faiss.use_sse4_2 = true) := by
  have key : ∀ t ∈ recognized, (SetSimdType b c t w).2.flags = expectedFlags t := by
    intro t ht
    have h := flags_SetSimdType_flags b t w hb ht
    simpa [SetSimdType, World.flags, World.emit] using h
  refine ⟨?_, ?_, ?_, ?_, ?_, ?_⟩
  · rw [key _ (by simp [recognized])]; decide
  · rw [key _ (by simp [recognized])]; decide
  · rw [key _ (by simp [recognized])]; decide
  · rw [key _ (by simp [recognized])]; decide
  · rw [key _ (by simp [recognized])]; decide
  · intro t ht
    have h := key t ht
    simp only [recognized, List.mem_cons, List.mem_singleton, List.not_mem_nil,
      or_false] at ht
    have e1 : (SetSimdType b c t w).2.faiss.use_avx512 = (expectedFlags t).avx512 := by
      rw [← h]; rfl
    have e2 : (SetSimdType b c t w).2.faiss.use_avx2 = (expectedFlags t).avx2 := by
      rw [← h]; rfl
    have e3 : (SetSimdType b c t w).2.faiss.use_sse4_2 = (expectedFlags t).sse4_2 := by
      rw [← h]; rfl
    rw [e1, e2, e3]
    rcases ht with h | h | h | h | h <;> subst h <;> decide

/-- C2, evaluated on the sample x86_64 build, collaborators and state. -/
theorem C2_simd_flags_inclusive_witness :
    sampleBuild.x86_64 = true
      ∧ (SetSimdType sampleBuild sampleCollab SimdType.AVX2 sampleWorld).2.flags
          = ⟨false, true, true⟩ :=
  ⟨rfl, (C2_simd_flags_inclusive sampleBuild sampleCollab sampleWorld rfl).2.2.1⟩

/-- C6: for every `SimdType` value that is none of the five enumerators, every build and
every prior state, `SetSimdType` leaves the faiss globals (hence all three kernel flags) as
they were, still invokes `fvec_hook` once, on the unchanged flags, and returns the name the
hook reports; the operation is total and has no error result. -/
theorem C6_unrecognized_tier_keeps_flags {ε : Type} (b : Build) (c : Collaborators ε)
    (t : SimdType) (w : World ε) (ht : t ∉ recognized) :
    (SetSimdType b c t w).2.faiss = w.faiss
      ∧ (SetSimdType b c t w).2.flags = w.flags
      ∧ (SetSimdType b c t w).2.hook_calls = w.hook_calls ++ [w.flags]
      ∧ (SetSimdType b c t w).1 = c.fvec_hook w.flags "" := by
  have h := SetSimdType_flags_unrecognized b t w ht
  simp [SetSimdType, h, World.emit, World.flags]

/-- C6, evaluated at the value `7` on the sample build, collaborators and state: the
flags stay `(true, false, true)` and the hook reports "AVX512". -/
theorem C6_unrecognized_tier_keeps_flags_witness :
    (⟨7⟩ : SimdType) ∉ recognized
      ∧ (SetSimdType sampleBuild sampleCollab ⟨7⟩ sampleWorld).2.flags = ⟨true, false, true⟩
      ∧ (SetSimdType sampleBuild sampleCollab ⟨7⟩ sampleWorld).1 = "AVX512" :=
  ⟨by decide,
    (C6_unrecognized_tier_keeps_flags sampleBuild sampleCollab ⟨7⟩ sampleWorld
      (by decide)).2.1,
    (C6_unrecognized_tier_keeps_flags sampleBuild sampleCollab ⟨7⟩ sampleWorld
      (by decide)).2.2.2⟩

/-- C7: for every build, tier value and prior state, `SetSimdType` appends exactly one
invocation of `fvec_hook` to the invocation trace, that invocation sees the flags as left
by the flag update (which are the flags of the final state), and the value returned is the
name the hook reports for those flags; on a build that is not x86_64 the faiss globals are
unchanged, the hook still runs and its name is still returned. -/
theorem C7_hook_runs_once_after_update {ε : Type} (b : Build) (c : Collaborators ε)
    (t : SimdType) (w : World ε) :
    (SetSimdType b c t w).2.hook_calls = w.hook_calls ++ [(SetSimdType_flags b t w).flags]
      ∧ (SetSimdType b c t w).2.hook_calls.length = w.hook_calls.length + 1
      ∧ (SetSimdType b c t w).2.flags = (SetSimdType_flags b t w).flags
      ∧ (SetSimdType b c t w).1 = c.fvec_hook (SetSimdType b c t w).2.flags ""
      ∧ (b.x86_64 = true ∨
          ((SetSimdType b c t w).2.faiss = w.faiss
            ∧ (SetSimdType b c t w).2.hook_calls = w.hook_calls ++ [w.flags]
            ∧ (SetSimdType b c t w).1 = c.fvec_hook w.flags "")) := by
  have hf := (SetSimdType_flags_frame b t w).2.2.2.1
  refine ⟨?_, ?_, ?_, ?_, ?_⟩
  · simp [SetSimdType, World.emit, hf]
  · simp [SetSimdType, World.emit, hf]
  · simp [SetSimdType, World.emit, World.flags]
  · simp [SetSimdType, World.emit, World.flags]
  · cases hb : b.x86_64
    · right
      have h0 : SetSimdType_flags b t w = w := by simp [SetSimdType_flags, hb]
      simp [SetSimdType, h0, World.emit, World.flags]
    · left; rfl

/-! ## Feature-gated operations -/

/-- C5: in a build where the disk-index, GPU and RAFT features are all compiled out, for
every argument and every prior state, `SetAioContextPool` returns `true`, and
`SetAioContextPool`, `InitGPUResource`, `FreeGPUResource` and `SetRaftMemPool` (whatever
the order of `init_size` and `max_size`) return normally and leave the whole state, log
included, unchanged. -/
theorem C5_features_compiled_out_noop {ε : Type} (b : Build) (c : Collaborators ε)
    (num_ctx init_size max_size : Nat) (gpu_id res_num : Int) (w : World ε)
    (hd : b.KNOWHERE_WITH_DISKANN = false) (hg : b.KNOWHERE_WITH_GPU = false)
    (hr : b.KNOWHERE_WITH_RAFT = false) :
    SetAioContextPool b c num_ctx w = (.ok true, w)
      ∧ InitGPUResource b c gpu_id res_num w = (.ok (), w)
      ∧ FreeGPUResource b c w = (.ok (), w)
      ∧ SetRaftMemPool b c init_size max_size w = (.ok (), w) := by
  simp [SetAioContextPool, InitGPUResource, FreeGPUResource, SetRaftMemPool, hd, hg, hr]

/-- C5, evaluated on the sample build (no optional feature) with `init_size > max_size`;
the sample GPU collaborator would fail if it were called. -/
theorem C5_features_compiled_out_noop_witness :
    (sampleBuild.KNOWHERE_WITH_DISKANN = false ∧ sampleBuild.KNOWHERE_WITH_GPU = false
        ∧ sampleBuild.KNOWHERE_WITH_RAFT = false)
      ∧ SetAioContextPool sampleBuild sampleCollab 0 sampleWorld = (.ok true, sampleWorld)
      ∧ InitGPUResource sampleBuild sampleCollab 0 4 sampleWorld = (.ok (), sampleWorld)
      ∧ FreeGPUResource sampleBuild sampleCollab sampleWorld = (.ok (), sampleWorld)
      ∧ SetRaftMemPool sampleBuild sampleCollab 9 3 sampleWorld = (.ok (), sampleWorld) :=
  ⟨⟨rfl, rfl, rfl⟩,
    C5_features_compiled_out_noop sampleBuild sampleCollab 0 9 3 0 4 sampleWorld rfl rfl rfl⟩

/-! ## Version reporter -/

/-- C8 (as stated, refuted): in a release build with RAFT compiled in and no version
identifier, the message the claim describes is "Knowhere Version: unknown-gpu", whereas
`ShowVersion` emits "Knowhere Version:  unknown", which carries no "-gpu" suffix. -/
theorem C8_message_differs_without_version :
    ShowVersion_msg_spec raftBuildNoVersion = "Knowhere Version: unknown-gpu"
      ∧ (ShowVersion raftBuildNoVersion sampleWorld).log
          = [[LogPiece.str "Knowhere Version:  unknown"]]
      ∧ ¬ ("-gpu".toList <:+ (ShowVersion_msg raftBuildNoVersion).toList)
      ∧ ShowVersion_msg raftBuildNoVersion ≠ ShowVersion_msg_spec raftBuildNoVersion := by
  refine ⟨by decide, by decide, by decide, by decide⟩

/-- C8 (amended): for every build configuration and prior state `ShowVersion` appends one
record to the log and changes nothing else. When the version identifier is defined the
message is "Knowhere Version: " followed by the identifier, followed by "-gpu" iff RAFT is
compiled in, followed by " (DEBUG)" iff the build is not optimized. When the identifier is
absent the message is "Knowhere Version: ", blank padding, "unknown", with no "-gpu"
suffix whether or not RAFT is compiled in, followed by " (DEBUG)" iff the build is not
optimized. -/
theorem C8_show_version_message {ε : Type} (b : Build) (w : World ε) :
    (ShowVersion b w).log = w.log ++ [[LogPiece.str (ShowVersion_msg b)]]
      ∧ (ShowVersion b w).faiss = w.faiss
      ∧ (ShowVersion b w).hook_calls = w.hook_calls
      ∧ (ShowVersion b w).ext = w.ext
      ∧ (match b.KNOWHERE_VERSION with
          | some v =>
            ShowVersion_msg b
              = "Knowhere Version: " ++ v ++ (if b.KNOWHERE_WITH_RAFT then "-gpu" else "")
                  ++ (if b.NDEBUG then "" else " (DEBUG)")
          | none =>
            ∃ pad : String, (∀ ch ∈ pad.toList, ch = ' ')
              ∧ ShowVersion_msg b
                = "Knowhere Version: " ++ pad ++ "unknown"
                    ++ (if b.NDEBUG then "" else " (DEBUG)")) := by
  refine ⟨rfl, rfl, rfl, rfl, ?_⟩
  cases hv : b.KNOWHERE_VERSION with
  | some v =>
    cases hr : b.KNOWHERE_WITH_RAFT <;> cases hn : b.NDEBUG <;>
      simp [ShowVersion_msg, hv, hr, hn]
  | none =>
    refine ⟨" ", by decide, ?_⟩
    cases hn : b.NDEBUG
    · simp only [ShowVersion_msg, hv, hn]
      rfl
    · simp only [ShowVersion_msg, hv, hn]
      rfl

/-! ## Frame conditions -/

/-- C9: each setter writes only its own field. For every argument and prior state,
`SetBlasThreshold` leaves the early-stop threshold, the clustering flag and the three SIMD
flags unchanged; `SetEarlyStopThreshold` leaves the BLAS threshold, the clustering flag and
the SIMD flags unchanged; `SetClusteringType` leaves both thresholds and the SIMD flags
unchanged; `SetSimdType` leaves both thresholds and the clustering flag unchanged.
Consequently two setters on different fields reach the same faiss globals in either order,
and `SetSimdType` returns the same name and leaves the same hook trace in either order. -/
theorem C9_setters_frame_and_commute {ε : Type} (b : Build) (c : Collaborators ε)
    (x : Int) (y : Double) (s : ClusteringType) (t : SimdType) (w : World ε) :
    ((SetBlasThreshold x w).faiss.early_stop_threshold = w.faiss.early_stop_threshold
        ∧ (SetBlasThreshold x w).faiss.clustering_type = w.faiss.clustering_type
        ∧ (SetBlasThreshold x w).flags = w.flags)
      ∧ ((SetEarlyStopThreshold y w).faiss.distance_compute_blas_threshold
            = w.faiss.distance_compute_blas_threshold
        ∧ (SetEarlyStopThreshold y w).faiss.clustering_type = w.faiss.clustering_type
        ∧ (SetEarlyStopThreshold y w).flags = w.flags)
      ∧ ((SetClusteringType s w).faiss.distance_compute_blas_threshold
            = w.faiss.distance_compute_blas_threshold
        ∧ (SetClusteringType s w).faiss.early_stop_threshold = w.faiss.early_stop_threshold
        ∧ (SetClusteringType s w).flags = w.flags)
      ∧ ((SetSimdType b c t w).2.faiss.distance_compute_blas_threshold
            = w.faiss.distance_compute_blas_threshold
        ∧ (SetSimdType b c t w).2.faiss.early_stop_threshold = w.faiss.early_stop_threshold
        ∧ (SetSimdType b c t w).2.faiss.clustering_type = w.faiss.clustering_type)
      ∧ (SetBlasThreshold x (SetEarlyStopThreshold y w)).faiss
          = (SetEarlyStopThreshold y (SetBlasThreshold x w)).faiss
      ∧ (SetBlasThreshold x (SetClusteringType s w)).faiss
          = (SetClusteringType s (SetBlasThreshold x w)).faiss
      ∧ (SetEarlyStopThreshold y (SetClusteringType s w)).faiss
          = (SetClusteringType s (SetEarlyStopThreshold y w)).faiss
      ∧ ((SetSimdType b c t (SetBlasThreshold x w)).2.faiss
            = (SetBlasThreshold x (SetSimdType b c t w).2).faiss
        ∧ (SetSimdType b c t (SetBlasThreshold x w)).2.hook_calls
            = (SetBlasThreshold x (SetSimdType b c t w).2).hook_calls
        ∧ (SetSimdType b c t (SetBlasThreshold x w)).1 = (SetSimdType b c t w).1)
      ∧ ((SetSimdType b c t (SetEarlyStopThreshold y w)).2.faiss
            = (SetEarlyStopThreshold y (SetSimdType b c t w).2).faiss
        ∧ (SetSimdType b c t (SetEarlyStopThreshold y w)).2.hook_calls
            = (SetEarlyStopThreshold y (SetSimdType b c t w).2).hook_calls
        ∧ (SetSimdType b c t (SetEarlyStopThreshold y w)).1 = (SetSimdType b c t w).1)
      ∧ ((SetSimdType b c t (SetClusteringType s w)).2.faiss
            = (SetClusteringType s (SetSimdType b c t w).2).faiss
        ∧ (SetSimdType b c t (SetClusteringType s w)).2.hook_calls
            = (SetClusteringType s (SetSimdType b c t w).2).hook_calls
        ∧ (SetSimdType b c t (SetClusteringType s w)).1 = (SetSimdType b c t w).1) := by
  refine ⟨⟨rfl, rfl, rfl⟩, ⟨rfl, rfl, rfl⟩, ?_, ?_, rfl, ?_, ?_, ?_, ?_, ?_⟩
  · unfold SetClusteringType
    split_ifs <;> exact ⟨rfl, rfl, rfl⟩
  · obtain ⟨h1, h2, h3, -, -⟩ := SetSimdType_flags_frame b t w
    exact ⟨h1, h2, h3⟩
  · unfold SetClusteringType
    split_ifs <;> rfl
  · unfold SetClusteringType
    split_ifs <;> rfl
  · unfold SetSimdType SetSimdType_flags
    split_ifs <;> exact ⟨rfl, rfl, rfl⟩
  · unfold SetSimdType SetSimdType_flags
    split_ifs <;> exact ⟨rfl, rfl, rfl⟩
  · unfold SetSimdType SetSimdType_flags SetClusteringType
    split_ifs <;> exact ⟨rfl, rfl, rfl⟩

end KnowhereConfig

end knowhere
